import Mathlib

/-!
Shallow embedding of the pyOpTools ray-propagation surfaces covered by this
excerpt: `IdealSurface` (idealsurface.pyx), `SimpleDMD` (simpledmd.pyx) and
`OpticalStop` (the optical stops module), together with the pieces of the
`Surface`/`Plane` base classes and of the external collaborators that these
code paths call.  Machine doubles are modelled as exact real numbers; the
all-NaN "no hit" sentinel vector is modelled as `none : Option Vec3`; a
raised Python exception is modelled with `Except`.
-/

namespace PyOpTools

/-- A `Vector3d` holding three finite doubles, doubles modelled as reals. -/
structure Vec3 where
  x : ℝ
  y : ℝ
  z : ℝ

/-- Eigen vector negation. -/
def Vec3.neg (v : Vec3) : Vec3 := ⟨-v.x, -v.y, -v.z⟩

/-- Eigen vector subtraction. -/
def Vec3.sub (a b : Vec3) : Vec3 := ⟨a.x - b.x, a.y - b.y, a.z - b.z⟩

/-- Eigen scalar multiplication. -/
def Vec3.smul (c : ℝ) (v : Vec3) : Vec3 := ⟨c * v.x, c * v.y, c * v.z⟩

/-- Eigen Euclidean norm. -/
noncomputable def Vec3.norm (v : Vec3) : ℝ :=
  Real.sqrt (v.x ^ 2 + v.y ^ 2 + v.z ^ 2)

/-- Eigen `normalize`: divide every component by the Euclidean norm. -/
noncomputable def Vec3.normalize (v : Vec3) : Vec3 :=
  ⟨v.x / v.norm, v.y / v.norm, v.z / v.norm⟩

/-- Modelled from the spec: the external `Shape` collaborator of section 6
(`contains(point_local) -> bool`), exposed to surfaces as `hit_cy`; the
boundary-geometry itself is out of scope, so a shape is just its predicate. -/
structure Shape where
  hit : Vec3 → Bool

/-- `Shape.hit_cy` applied to a possibly-NaN `Vector3d`.  The sentinel case
(`none`) is reported as not inside: every IEEE comparison against NaN is
false, so the coordinate tests of a shape reject a NaN point. -/
def Shape.hitOpt (s : Shape) : Option Vec3 → Bool
  | none => false
  | some p => s.hit p

/-- The `Ray` record (ray.pyx), with the fields read or written by the
surfaces of this excerpt, in the positional order of `Ray.fast_init`:
origin (`Vector3d`, possibly the NaN sentinel), direction (`Vector3d`),
intensity, wavelength, current medium index `n`, label, draw color, weak
parent reference, `pop`, id of the producing surface, `order`, and the
generation counter `_parent_cnt`. -/
inductive Ray : Type where
  | mk (origin : Option Vec3) (direction : Vec3)
      (intensity wavelength n : ℝ)
      (label : String) (drawColor : Option String)
      (parent : Option Ray) (pop : ℝ)
      (origSurf : ℕ) (order : ℕ) (parentCnt : ℕ) : Ray

/-- Field accessor for `Ray._origin`. -/
def Ray.origin : Ray → Option Vec3
  | .mk o _ _ _ _ _ _ _ _ _ _ _ => o

/-- Field accessor for `Ray._direction`. -/
def Ray.direction : Ray → Vec3
  | .mk _ d _ _ _ _ _ _ _ _ _ _ => d

/-- Field accessor for `Ray.intensity`. -/
def Ray.intensity : Ray → ℝ
  | .mk _ _ i _ _ _ _ _ _ _ _ _ => i

/-- Field accessor for `Ray.wavelength`. -/
def Ray.wavelength : Ray → ℝ
  | .mk _ _ _ w _ _ _ _ _ _ _ _ => w

/-- Field accessor for `Ray.n`, the current medium refractive index. -/
def Ray.n : Ray → ℝ
  | .mk _ _ _ _ n _ _ _ _ _ _ _ => n

/-- Field accessor for `Ray.label`. -/
def Ray.label : Ray → String
  | .mk _ _ _ _ _ l _ _ _ _ _ _ => l

/-- Field accessor for `Ray.draw_color`. -/
def Ray.drawColor : Ray → Option String
  | .mk _ _ _ _ _ _ c _ _ _ _ _ => c

/-- Field accessor for the weak parent reference of a ray. -/
def Ray.parent : Ray → Option Ray
  | .mk _ _ _ _ _ _ _ p _ _ _ _ => p

/-- Field accessor for `Ray.pop`. -/
def Ray.pop : Ray → ℝ
  | .mk _ _ _ _ _ _ _ _ p _ _ _ => p

/-- Field accessor for `Ray.orig_surf`, the id of the producing surface. -/
def Ray.origSurf : Ray → ℕ
  | .mk _ _ _ _ _ _ _ _ _ s _ _ => s

/-- Field accessor for `Ray.order`. -/
def Ray.order : Ray → ℕ
  | .mk _ _ _ _ _ _ _ _ _ _ o _ => o

/-- Field accessor for `Ray._parent_cnt`, the generation counter. -/
def Ray.parentCnt : Ray → ℕ
  | .mk _ _ _ _ _ _ _ _ _ _ _ c => c

/-- `Ray.fast_init(origin, direction, intensity, wavelength, n, label,
draw_color, parent, pop, orig_surf, order, parent_cnt)` (ray.pyx), the
constructor every propagate path of this excerpt uses. -/
def Ray.fast_init (origin : Option Vec3) (direction : Vec3)
    (intensity wavelength n : ℝ) (label : String) (drawColor : Option String)
    (parent : Option Ray) (pop : ℝ) (origSurf order parentCnt : ℕ) : Ray :=
  .mk origin direction intensity wavelength n label drawColor parent pop
    origSurf order parentCnt

/-- Modelled from the spec: `Plane._calculate_intersection` (plane.pyx is not
part of this excerpt; only its subclasses `OpticalStop` and `SimpleDMD` are).
Per section 4.1 a flat variant intersects the ray with its local z = 0 plane;
a ray parallel to the plane, and a ray whose intersection parameter would be
in the past (behind the origin along the direction), both yield the NaN
NO_HIT sentinel. -/
noncomputable def Plane.calcIntersection (r : Ray) : Option Vec3 :=
  match r.origin with
  | none => none
  | some o =>
    if r.direction.z = 0 then none
    else
      let u := -o.z / r.direction.z
      if u < 0 then none
      else some ⟨o.x + u * r.direction.x, o.y + u * r.direction.y,
                 o.z + u * r.direction.z⟩

/-- Modelled from the spec: `Surface.intersection_cy` (surface.pyx is not
part of this excerpt).  Per sections 4.1 and 4.2 the full intersection
operation honours the aperture boundary: the variant intersection is computed
first, and a point outside the external `Shape` is mapped to the NaN NO_HIT
sentinel.  A sentinel produced by the variant stays a sentinel. -/
def Surface.intersection_cy (shape : Shape) (calcFn : Ray → Option Vec3)
    (r : Ray) : Option Vec3 :=
  match calcFn r with
  | none => none
  | some p => if shape.hit p then some p else none

/-- `IdealSurface` (idealsurface.pyx): the focal length `f`, plus the
`Surface` base-class attributes its propagate path reads: the external
aperture `shape`, the reflectivity function (wavelength to R, the bound
`self` argument dropped) and the surface id. -/
structure IdealSurface where
  f : ℝ
  shape : Shape
  reflectivityFunction : ℝ → ℝ
  id : ℕ

/-- `IdealSurface._calculate_intersection`: intersection of the ray with the
XY plane z = 0.  The NaN sentinel is assigned only when the z component of
the direction is exactly zero; otherwise the point at parameter
`u = -z1 / dz` is returned, even when `u` is negative. -/
noncomputable def IdealSurface.calcIntersection (r : Ray) : Option Vec3 :=
  match r.origin with
  | none => none
  | some o =>
    if r.direction.z = 0 then none
    else
      let u := -o.z / r.direction.z
      some ⟨o.x + u * r.direction.x, o.y + u * r.direction.y,
            o.z + u * r.direction.z⟩

/-- `IdealSurface.propagate(incident_ray, ni, nr)` (idealsurface.pyx).
The `raise ValueError` on an out-of-range reflectivity is modelled as
`Except.error ()`; every normal return is wrapped in `Except.ok`. -/
noncomputable def IdealSurface.propagate (s : IdealSurface)
    (incident_ray : Ray) (ni nr : ℝ) : Except Unit (List Ray) :=
  match Surface.intersection_cy s.shape IdealSurface.calcIntersection
      incident_ray with
  | none => .ok []
  | some intersection_point =>
    let dirv := incident_ray.direction
    let rz := dirv.z
    if rz = 0 then .ok []
    else
      let scale := s.f / |rz|
      let FP := Vec3.smul scale dirv
      let reflect := s.reflectivityFunction incident_ray.wavelength
      if 1 < reflect ∨ reflect < 0 then .error ()
      else
        let d := Vec3.normalize
          (if s.f < 0 then Vec3.neg (Vec3.sub FP intersection_point)
           else Vec3.sub FP intersection_point)
        let rdir := Vec3.normalize (Vec3.sub intersection_point FP)
        if reflect = 0 then
          .ok [Ray.fast_init (some intersection_point) d
                incident_ray.intensity incident_ray.wavelength nr
                incident_ray.label incident_ray.drawColor none 0 s.id 0
                (incident_ray.parentCnt + 1)]
        else if reflect = 1 then
          .ok [Ray.fast_init (some intersection_point) rdir
                incident_ray.intensity incident_ray.wavelength ni
                incident_ray.label incident_ray.drawColor none 0 s.id 0
                (incident_ray.parentCnt + 1)]
        else
          .ok [Ray.fast_init (some intersection_point) d
                (incident_ray.intensity * (1 - reflect))
                incident_ray.wavelength nr incident_ray.label
                incident_ray.drawColor none 0 s.id 0
                (incident_ray.parentCnt + 1),
               Ray.fast_init (some intersection_point) rdir
                (incident_ray.intensity * reflect) incident_ray.wavelength ni
                incident_ray.label incident_ray.drawColor none 0 s.id 0
                (incident_ray.parentCnt + 1)]

/-- `OpticalStop` (the optical stops module): a `Plane` with an optional
internal aperture shape defining a hole; the external `shape` and the `id`
come from the `Surface` base class. -/
structure OpticalStop where
  shape : Shape
  ap_shape : Option Shape
  id : ℕ

/-- `OpticalStop._calculate_intersection`: the inherited plane intersection,
with a point falling inside the internal aperture hole replaced by the NaN
sentinel; the aperture is only checked when `ap_shape` is not `None`. -/
noncomputable def OpticalStop.calcIntersection (s : OpticalStop) (r : Ray) :
    Option Vec3 :=
  let p := Plane.calcIntersection r
  match s.ap_shape with
  | none => p
  | some sh => if sh.hitOpt p then none else p

/-- `OpticalStop.propagate(ri, ni, nr)`: builds exactly one child ray at the
computed intersection point (which is never tested against the NaN
sentinel), carrying the incident direction, intensity `0`, the incident
wavelength and medium index `ri.n`, parent `ri`, `ri.pop`, this surface id
and generation `ri._parent_cnt + 1`.  The `ni`, `nr` arguments are unused. -/
noncomputable def OpticalStop.propagate (s : OpticalStop) (ri : Ray)
    (_ni _nr : ℝ) : List Ray :=
  let PI := s.calcIntersection ri
  [Ray.fast_init PI ri.direction 0 ri.wavelength ri.n ri.label ri.drawColor
    (some ri) ri.pop s.id 0 (ri.parentCnt + 1)]

/-- The discrete operating state of a `SimpleDMD`; the constructor and the
state setter validate the state string against exactly these three values,
so the enumeration is faithful. -/
inductive DMDState : Type where
  | on : DMDState
  | off : DMDState
  | flat : DMDState

/-- `SimpleDMD` (simpledmd.pyx): the three precomputed state normals, the
current state, and the stored construction angles.  The surface is otherwise
a `Plane` with reflectivity hardcoded to 1. -/
structure SimpleDMD where
  normal_on : Vec3
  normal_off : Vec3
  normal_flat : Vec3
  state : DMDState
  tilt_angle : ℝ
  on_direction_angle : ℝ
  off_direction_angle : ℝ

/-- `SimpleDMD.__init__`: precompute the three normals once, via the
spherical formula (sin(tilt) cos(dir), sin(tilt) sin(dir), cos(tilt)) for
the on and off states and (0, 0, 1) for the flat state, each followed by an
Eigen `normalize` call, then store the initial state. -/
noncomputable def SimpleDMD.init (tilt_angle on_direction_angle
    off_direction_angle : ℝ) (state : DMDState) : SimpleDMD where
  normal_on := Vec3.normalize
    ⟨Real.sin tilt_angle * Real.cos on_direction_angle,
     Real.sin tilt_angle * Real.sin on_direction_angle,
     Real.cos tilt_angle⟩
  normal_off := Vec3.normalize
    ⟨Real.sin tilt_angle * Real.cos off_direction_angle,
     Real.sin tilt_angle * Real.sin off_direction_angle,
     Real.cos tilt_angle⟩
  normal_flat := Vec3.normalize ⟨0, 0, 1⟩
  state := state
  tilt_angle := tilt_angle
  on_direction_angle := on_direction_angle
  off_direction_angle := off_direction_angle

/-- The `state` property setter of `SimpleDMD`: after validating the value it
stores only the `_state` field; the precomputed normals are untouched. -/
def SimpleDMD.setState (d : SimpleDMD) (s : DMDState) : SimpleDMD :=
  { d with state := s }

/-- `SimpleDMD._calculate_normal`: return the precomputed normal selected by
the current state; the intersection-point argument is unused. -/
def SimpleDMD.calcNormal (d : SimpleDMD) (_intersection_point : Vec3) : Vec3 :=
  match d.state with
  | .on => d.normal_on
  | .off => d.normal_off
  | .flat => d.normal_flat

/-- The transmitted child ray built by `IdealSurface.propagate`: it starts
at the intersection point `p`, aims through the focal point
`FP = dir * f / |dz|` (sign-flipped for a negative focal length), changes
medium to `nr`, and carries the intensity `i` of the branch at hand. -/
noncomputable def IdealSurface.transmittedChild (s : IdealSurface) (r : Ray)
    (p : Vec3) (nr i : ℝ) : Ray :=
  Ray.fast_init (some p)
    (Vec3.normalize (if s.f < 0 then
        Vec3.neg (Vec3.sub (Vec3.smul (s.f / |r.direction.z|) r.direction) p)
      else Vec3.sub (Vec3.smul (s.f / |r.direction.z|) r.direction) p))
    i r.wavelength nr r.label r.drawColor none 0 s.id 0 (r.parentCnt + 1)

/-- The reflected child ray built by `IdealSurface.propagate`: it starts at
the intersection point `p` with direction from the focal point towards `p`,
keeps the incident medium `ni`, and carries the intensity `i` of the branch
at hand. -/
noncomputable def IdealSurface.reflectedChild (s : IdealSurface) (r : Ray)
    (p : Vec3) (ni i : ℝ) : Ray :=
  Ray.fast_init (some p)
    (Vec3.normalize (Vec3.sub p
      (Vec3.smul (s.f / |r.direction.z|) r.direction)))
    i r.wavelength ni r.label r.drawColor none 0 s.id 0 (r.parentCnt + 1)

/-- The intersection behaviour of `OpticalStop` as claim C10 words it: with
no internal aperture it is exactly the inherited plane intersection, and
with an aperture it is the plane result unless that point lies inside the
aperture shape, in which case it is the NaN NO_HIT sentinel. -/
noncomputable def stopIntersectionSpec (ap : Option Shape) (r : Ray) :
    Option Vec3 :=
  match ap with
  | none => Plane.calcIntersection r
  | some sh =>
    match Plane.calcIntersection r with
    | none => none
    | some p => if sh.hit p then none else some p

/-- Normalizing the exact unit vector (0, 0, 1) is the identity. -/
theorem Vec3.normalize_unitZ : Vec3.normalize ⟨0, 0, 1⟩ = ⟨0, 0, 1⟩ := by
  unfold Vec3.normalize Vec3.norm
  norm_num

/-- Branch lemma: with a valid intersection, a nonzero direction z component
and reflectivity 0, `IdealSurface.propagate` returns exactly the transmitted
child at full intensity. -/
theorem propagate_R0 (s : IdealSurface) (r : Ray) (ni nr : ℝ) (p : Vec3)
    (hI : Surface.intersection_cy s.shape IdealSurface.calcIntersection r
      = some p)
    (hz : r.direction.z ≠ 0)
    (hR : s.reflectivityFunction r.wavelength = 0) :
    s.propagate r ni nr = .ok [s.transmittedChild r p nr r.intensity] := by
  have hcond : ¬(1 < s.reflectivityFunction r.wavelength
      ∨ s.reflectivityFunction r.wavelength < 0) := by
    rw [hR]
    norm_num
  simp only [IdealSurface.propagate, hI, if_neg hz, if_neg hcond, if_pos hR,
    IdealSurface.transmittedChild]

/-- Branch lemma: with a valid intersection, a nonzero direction z component
and reflectivity 1, `IdealSurface.propagate` returns exactly the reflected
child at full intensity. -/
theorem propagate_R1 (s : IdealSurface) (r : Ray) (ni nr : ℝ) (p : Vec3)
    (hI : Surface.intersection_cy s.shape IdealSurface.calcIntersection r
      = some p)
    (hz : r.direction.z ≠ 0)
    (hR : s.reflectivityFunction r.wavelength = 1) :
    s.propagate r ni nr = .ok [s.reflectedChild r p ni r.intensity] := by
  have hcond : ¬(1 < s.reflectivityFunction r.wavelength
      ∨ s.reflectivityFunction r.wavelength < 0) := by
    rw [hR]
    norm_num
  have hne0 : s.reflectivityFunction r.wavelength ≠ 0 := by
    rw [hR]
    norm_num
  simp only [IdealSurface.propagate, hI, if_neg hz, if_neg hcond,
    if_neg hne0, if_pos hR, IdealSurface.reflectedChild]

/-- Branch lemma: with a valid intersection, a nonzero direction z component
and reflectivity strictly between 0 and 1, `IdealSurface.propagate` returns
the transmitted child at intensity i (1 - R) followed by the reflected child
at intensity i R. -/
theorem propagate_split (s : IdealSurface) (r : Ray) (ni nr : ℝ) (p : Vec3)
    (hI : Surface.intersection_cy s.shape IdealSurface.calcIntersection r
      = some p)
    (hz : r.direction.z ≠ 0)
    (h0 : 0 < s.reflectivityFunction r.wavelength)
    (h1 : s.reflectivityFunction r.wavelength < 1) :
    s.propagate r ni nr = .ok
      [s.transmittedChild r p nr
        (r.intensity * (1 - s.reflectivityFunction r.wavelength)),
       s.reflectedChild r p ni
        (r.intensity * s.reflectivityFunction r.wavelength)] := by
  have hne0 : s.reflectivityFunction r.wavelength ≠ 0 := ne_of_gt h0
  have hne1 : s.reflectivityFunction r.wavelength ≠ 1 := ne_of_lt h1
  have hcond : ¬(1 < s.reflectivityFunction r.wavelength
      ∨ s.reflectivityFunction r.wavelength < 0) := by
    push_neg
    exact ⟨h1.le, h0.le⟩
  simp only [IdealSurface.propagate, hI, if_neg hz, if_neg hcond,
    if_neg hne0, if_neg hne1, IdealSurface.transmittedChild,
    IdealSurface.reflectedChild]

/-- C5: the normal computed by `SimpleDMD` depends only on the current
discrete state, never on the intersection-point argument; for state flat it
equals (0, 0, 1) exactly; for on and off it equals the unit-normalized
spherical vector precomputed at construction from the configured tilt and
direction angles; and changing the state only swaps which precomputed
vector is selected, leaving every construction-time field untouched. -/
theorem claim_C5 (t a b : ℝ) (st st' : DMDState) (p q : Vec3) :
    (SimpleDMD.init t a b st).calcNormal p
        = (SimpleDMD.init t a b st).calcNormal q
    ∧ (SimpleDMD.init t a b .flat).calcNormal p = ⟨0, 0, 1⟩
    ∧ (SimpleDMD.init t a b .on).calcNormal p
        = Vec3.normalize ⟨Real.sin t * Real.cos a, Real.sin t * Real.sin a,
            Real.cos t⟩
    ∧ (SimpleDMD.init t a b .off).calcNormal p
        = Vec3.normalize ⟨Real.sin t * Real.cos b, Real.sin t * Real.sin b,
            Real.cos t⟩
    ∧ (SimpleDMD.init t a b st).setState st' = SimpleDMD.init t a b st' := by
  refine ⟨by cases st <;> rfl, ?_, rfl, rfl, rfl⟩
  simpa [SimpleDMD.calcNormal, SimpleDMD.init] using Vec3.normalize_unitZ

/-- C10: `OpticalStop._calculate_intersection` coincides, for every stop and
every incident ray, with the composite the claim describes: the inherited
plane intersection when `ap_shape` is `None`, and otherwise the plane result
with points inside the aperture hole replaced by the NaN sentinel. -/
theorem claim_C10 (s : OpticalStop) (r : Ray) :
    s.calcIntersection r = stopIntersectionSpec s.ap_shape r
    ∧ (OpticalStop.mk s.shape none s.id).calcIntersection r
        = Plane.calcIntersection r := by
  constructor
  · unfold OpticalStop.calcIntersection stopIntersectionSpec
    cases s.ap_shape with
    | none => rfl
    | some sh =>
      cases hpi : Plane.calcIntersection r with
      | none => simp [hpi, Shape.hitOpt]
      | some p => simp [hpi, Shape.hitOpt]
  · rfl

/-- C2: evaluation of the code at the failing input.  A ray starting at
(0, 0, 1) with direction (0, 0, 1) meets the z = 0 plane only at parameter
u = -1, behind its origin, yet `IdealSurface._calculate_intersection`
reports the behind-origin point (0, 0, 0) instead of the NaN NO_HIT
sentinel that the claim requires for a negative intersection parameter. -/
theorem claim_C2_code_eval :
    IdealSurface.calcIntersection
        (Ray.mk (some ⟨0, 0, 1⟩) ⟨0, 0, 1⟩ 1 1 1 "" none none 0 0 0 0)
      = some ⟨0, 0, 0⟩ := by
  norm_num [IdealSurface.calcIntersection, Ray.origin, Ray.direction]

/-- C1 fails on the code: for an incident ray of intensity 1 whose
intersection with the stop plane is valid (an all-accepting external shape,
no internal aperture hole), the single child built by
`OpticalStop.propagate` carries intensity 0, not the intensity of the
incident ray. -/
theorem claim_C1_counterexample :
    OpticalStop.calcIntersection
        (OpticalStop.mk (Shape.mk fun _ => true) none 7)
        (Ray.mk (some ⟨0, 0, 1⟩) ⟨0, 0, -1⟩ 1 1 1 "" none none 0 0 0 0)
      = some ⟨0, 0, 0⟩
    ∧ (OpticalStop.propagate
        (OpticalStop.mk (Shape.mk fun _ => true) none 7)
        (Ray.mk (some ⟨0, 0, 1⟩) ⟨0, 0, -1⟩ 1 1 1 "" none none 0 0 0 0)
        1 1).map Ray.intensity = [0]
    ∧ (0 : ℝ) ≠ 1 := by
  refine ⟨?_, ?_, by norm_num⟩
  · norm_num [OpticalStop.calcIntersection, Plane.calcIntersection,
      Ray.origin, Ray.direction]
  · simp [OpticalStop.propagate, Ray.fast_init, Ray.intensity]

/-- C3 fails on the code for the stop variant: with an internal aperture
hole covering the whole plane, the intersection step yields the NO_HIT
sentinel for a ray aimed at the plane, yet `OpticalStop.propagate` still
returns one child ray instead of the empty list. -/
theorem claim_C3_counterexample :
    OpticalStop.calcIntersection
        (OpticalStop.mk (Shape.mk fun _ => true)
          (some (Shape.mk fun _ => true)) 7)
        (Ray.mk (some ⟨0, 0, 1⟩) ⟨0, 0, -1⟩ 1 1 1 "" none none 0 0 0 0)
      = none
    ∧ OpticalStop.propagate
        (OpticalStop.mk (Shape.mk fun _ => true)
          (some (Shape.mk fun _ => true)) 7)
        (Ray.mk (some ⟨0, 0, 1⟩) ⟨0, 0, -1⟩ 1 1 1 "" none none 0 0 0 0)
        1 1 ≠ [] := by
  constructor
  · norm_num [OpticalStop.calcIntersection, Plane.calcIntersection,
      Ray.origin, Ray.direction, Shape.hitOpt]
  · simp [OpticalStop.propagate]

/-- C1 (amended): for every incident ray whose intersection with the stop
plane is valid (inside the external shape and outside the internal aperture
hole), `OpticalStop.propagate` returns exactly one child ray located at the
intersection point that carries the same direction and the same medium
refractive index as the incident ray, but its intensity is set to 0 rather
than to the intensity of the incident ray. -/
theorem claim_C1_amended (s : OpticalStop) (r : Ray) (ni nr : ℝ) (p : Vec3)
    (hI : s.calcIntersection r = some p) (_hs : s.shape.hit p = true) :
    ∃ c, s.propagate r ni nr = [c]
      ∧ c.origin = some p ∧ c.direction = r.direction ∧ c.n = r.n
      ∧ c.intensity = 0 := by
  refine ⟨Ray.fast_init (some p) r.direction 0 r.wavelength r.n r.label
    r.drawColor (some r) r.pop s.id 0 (r.parentCnt + 1), ?_, rfl, rfl, rfl,
    rfl⟩
  simp only [OpticalStop.propagate, hI]

/-- C1 witness: a concrete stop and incident ray with a valid intersection,
evaluated through the amended claim. -/
theorem claim_C1_witness :
    ∃ c,
      OpticalStop.propagate (.mk ⟨fun _ => true⟩ none 7)
          (.mk (some ⟨0, 0, 1⟩) ⟨0, 0, -1⟩ 1 1 1 "" none none 0 0 0 0) 1 1
        = [c]
      ∧ c.origin = some ⟨0, 0, 0⟩ ∧ c.direction = ⟨0, 0, -1⟩ ∧ c.n = 1
      ∧ c.intensity = 0 :=
  claim_C1_amended (.mk ⟨fun _ => true⟩ none 7)
    (.mk (some ⟨0, 0, 1⟩) ⟨0, 0, -1⟩ 1 1 1 "" none none 0 0 0 0) 1 1 ⟨0, 0, 0⟩
    (by norm_num [OpticalStop.calcIntersection, Plane.calcIntersection,
      Ray.origin, Ray.direction]) rfl

/-- C3 (amended): when the intersection step yields the NO_HIT sentinel,
`IdealSurface.propagate` returns the empty list; `OpticalStop.propagate`,
however, still returns exactly one child ray, whose position is the NaN
sentinel and whose intensity is 0. -/
theorem claim_C3_amended (s : IdealSurface) (t : OpticalStop) (r : Ray)
    (ni nr : ℝ) :
    (Surface.intersection_cy s.shape IdealSurface.calcIntersection r = none →
      s.propagate r ni nr = .ok [])
    ∧ (t.calcIntersection r = none →
      ∃ c, t.propagate r ni nr = [c] ∧ c.origin = none ∧ c.intensity = 0) := by
  constructor
  · intro h
    simp only [IdealSurface.propagate, h]
  · intro h
    refine ⟨Ray.fast_init none r.direction 0 r.wavelength r.n r.label
      r.drawColor (some r) r.pop t.id 0 (r.parentCnt + 1), ?_, rfl, rfl⟩
    simp only [OpticalStop.propagate, h]

/-- C3 witness: a concrete ideal surface and a ray parallel to its plane
(NO_HIT), evaluated through the amended claim. -/
theorem claim_C3_witness :
    IdealSurface.propagate (.mk 100 ⟨fun _ => true⟩ (fun _ => 0) 3)
        (.mk (some ⟨0, 0, 1⟩) ⟨1, 0, 0⟩ 1 1 1 "" none none 0 0 0 0) 1 1
      = .ok [] :=
  (claim_C3_amended (.mk 100 ⟨fun _ => true⟩ (fun _ => 0) 3)
      (.mk ⟨fun _ => true⟩ none 7)
      (.mk (some ⟨0, 0, 1⟩) ⟨1, 0, 0⟩ 1 1 1 "" none none 0 0 0 0) 1 1).1
    (by norm_num [Surface.intersection_cy, IdealSurface.calcIntersection,
      Ray.origin, Ray.direction])

/-- C4: for every beam-splitting call of `IdealSurface.propagate` with
reflectivity strictly between 0 and 1 and a valid intersection, the
transmitted child carries the parent intensity times (1 - R), the reflected
child carries the parent intensity times R, and the two child intensities
sum exactly to the parent intensity. -/
theorem claim_C4 (s : IdealSurface) (r : Ray) (ni nr : ℝ) (p : Vec3)
    (hI : Surface.intersection_cy s.shape IdealSurface.calcIntersection r
      = some p)
    (hz : r.direction.z ≠ 0)
    (h0 : 0 < s.reflectivityFunction r.wavelength)
    (h1 : s.reflectivityFunction r.wavelength < 1) :
    ∃ tr rf, s.propagate r ni nr = .ok [tr, rf]
      ∧ tr.intensity = r.intensity * (1 - s.reflectivityFunction r.wavelength)
      ∧ rf.intensity = r.intensity * s.reflectivityFunction r.wavelength
      ∧ tr.intensity + rf.intensity = r.intensity := by
  refine ⟨_, _, propagate_split s r ni nr p hI hz h0 h1, rfl, rfl, ?_⟩
  simp only [IdealSurface.transmittedChild, IdealSurface.reflectedChild,
    Ray.fast_init, Ray.intensity]
  ring

/-- C4 witness: a concrete beam-splitting call with R = 1/2 where the child
intensities sum to the parent intensity 1. -/
theorem claim_C4_witness :
    ∃ tr rf,
      IdealSurface.propagate (.mk 100 ⟨fun _ => true⟩ (fun _ => 1 / 2) 3)
          (.mk (some ⟨0, 0, 1⟩) ⟨0, 0, -1⟩ 1 1 1 "" none none 0 0 0 0) 1 1
        = .ok [tr, rf]
      ∧ tr.intensity + rf.intensity = 1 := by
  obtain ⟨tr, rf, hp, _, _, hsum⟩ :=
    claim_C4 (.mk 100 ⟨fun _ => true⟩ (fun _ => 1 / 2) 3)
      (.mk (some ⟨0, 0, 1⟩) ⟨0, 0, -1⟩ 1 1 1 "" none none 0 0 0 0) 1 1
      ⟨0, 0, 0⟩
      (by norm_num [Surface.intersection_cy, IdealSurface.calcIntersection,
        Ray.origin, Ray.direction])
      (by norm_num [Ray.direction])
      (by norm_num)
      (by norm_num)
  exact ⟨tr, rf, hp, by simpa [Ray.intensity] using hsum⟩

/-- C6: with a valid intersection and a nonzero direction z component,
`IdealSurface.propagate` returns exactly one transmitted child with medium
index set to the transmitted index when R = 0, exactly one reflected child
with medium index set to the incident index when R = 1, and exactly two
children (transmitted then reflected, with those medium indices) when R is
strictly between 0 and 1. -/
theorem claim_C6 (s : IdealSurface) (r : Ray) (ni nr : ℝ) (p : Vec3)
    (hI : Surface.intersection_cy s.shape IdealSurface.calcIntersection r
      = some p)
    (hz : r.direction.z ≠ 0) :
    (s.reflectivityFunction r.wavelength = 0 →
      ∃ c, s.propagate r ni nr = .ok [c] ∧ c.n = nr)
    ∧ (s.reflectivityFunction r.wavelength = 1 →
      ∃ c, s.propagate r ni nr = .ok [c] ∧ c.n = ni)
    ∧ (0 < s.reflectivityFunction r.wavelength →
      s.reflectivityFunction r.wavelength < 1 →
      ∃ tr rf, s.propagate r ni nr = .ok [tr, rf] ∧ tr.n = nr
        ∧ rf.n = ni) := by
  refine ⟨fun hR => ⟨_, propagate_R0 s r ni nr p hI hz hR, rfl⟩,
    fun hR => ⟨_, propagate_R1 s r ni nr p hI hz hR, rfl⟩,
    fun h0 h1 => ⟨_, _, propagate_split s r ni nr p hI hz h0 h1, rfl, rfl⟩⟩

/-- C6 witness: a concrete pure-transmission call (R = 0) returning exactly
one child with medium index set to the transmitted index 3. -/
theorem claim_C6_witness :
    ∃ c,
      IdealSurface.propagate (.mk 100 ⟨fun _ => true⟩ (fun _ => 0) 3)
          (.mk (some ⟨0, 0, 1⟩) ⟨0, 0, -1⟩ 1 1 1 "" none none 0 0 0 0) 2 3
        = .ok [c] ∧ c.n = 3 :=
  (claim_C6 (.mk 100 ⟨fun _ => true⟩ (fun _ => 0) 3)
      (.mk (some ⟨0, 0, 1⟩) ⟨0, 0, -1⟩ 1 1 1 "" none none 0 0 0 0) 2 3
      ⟨0, 0, 0⟩
      (by norm_num [Surface.intersection_cy, IdealSurface.calcIntersection,
        Ray.origin, Ray.direction])
      (by norm_num [Ray.direction])).1 rfl

/-- C7: for an incident ray with a valid intersection and nonzero direction
z component, `IdealSurface.propagate` raises an error if and only if the
reflectivity function evaluated at the wavelength of the ray is outside
[0, 1]; when the intersection step yields NO_HIT it never raises and
returns the empty list. -/
theorem claim_C7 (s : IdealSurface) (r : Ray) (ni nr : ℝ) :
    (∀ p,
      Surface.intersection_cy s.shape IdealSurface.calcIntersection r
        = some p →
      r.direction.z ≠ 0 →
      (s.propagate r ni nr = .error () ↔
        (s.reflectivityFunction r.wavelength < 0
          ∨ 1 < s.reflectivityFunction r.wavelength)))
    ∧ (Surface.intersection_cy s.shape IdealSurface.calcIntersection r
        = none →
      s.propagate r ni nr = .ok []) := by
  constructor
  · intro p hI hz
    by_cases hbad : 1 < s.reflectivityFunction r.wavelength
        ∨ s.reflectivityFunction r.wavelength < 0
    · have herr : s.propagate r ni nr = .error () := by
        simp only [IdealSurface.propagate, hI, if_neg hz, if_pos hbad]
      rw [herr]
      exact ⟨fun _ => hbad.elim Or.inr Or.inl, fun _ => rfl⟩
    · have hok : ∃ l, s.propagate r ni nr = .ok l := by
        by_cases h0 : s.reflectivityFunction r.wavelength = 0
        · exact ⟨_, propagate_R0 s r ni nr p hI hz h0⟩
        · by_cases h1 : s.reflectivityFunction r.wavelength = 1
          · exact ⟨_, propagate_R1 s r ni nr p hI hz h1⟩
          · push_neg at hbad
            have h0lt : 0 < s.reflectivityFunction r.wavelength :=
              lt_of_le_of_ne hbad.2 (Ne.symm h0)
            have h1lt : s.reflectivityFunction r.wavelength < 1 :=
              lt_of_le_of_ne hbad.1 h1
            exact ⟨_, propagate_split s r ni nr p hI hz h0lt h1lt⟩
      obtain ⟨l, hl⟩ := hok
      rw [hl]
      constructor
      · intro h
        exact absurd h (by simp)
      · intro h
        exact absurd (h.elim Or.inr Or.inl) hbad
  · intro h
    simp only [IdealSurface.propagate, h]

/-- C7 witness: a concrete surface whose reflectivity function yields 2 at
the wavelength of the ray raises the configuration error. -/
theorem claim_C7_witness :
    IdealSurface.propagate (.mk 100 ⟨fun _ => true⟩ (fun _ => 2) 3)
        (.mk (some ⟨0, 0, 1⟩) ⟨0, 0, -1⟩ 1 1 1 "" none none 0 0 0 0) 1 1
      = .error () :=
  ((claim_C7 (.mk 100 ⟨fun _ => true⟩ (fun _ => 2) 3)
      (.mk (some ⟨0, 0, 1⟩) ⟨0, 0, -1⟩ 1 1 1 "" none none 0 0 0 0) 1 1).1
    ⟨0, 0, 0⟩
    (by norm_num [Surface.intersection_cy, IdealSurface.calcIntersection,
      Ray.origin, Ray.direction])
    (by norm_num [Ray.direction])).mpr (by norm_num [Ray.wavelength])

/-- C8: for an incident ray whose direction has zero z component,
`IdealSurface._calculate_intersection` reports NO_HIT before any division
is reached, the clipped intersection is NO_HIT as well, and
`IdealSurface.propagate` returns the empty list, so the guarded divisions
by the z component are never executed. -/
theorem claim_C8 (s : IdealSurface) (r : Ray) (ni nr : ℝ)
    (hz : r.direction.z = 0) :
    IdealSurface.calcIntersection r = none
    ∧ Surface.intersection_cy s.shape IdealSurface.calcIntersection r = none
    ∧ s.propagate r ni nr = .ok [] := by
  have h1 : IdealSurface.calcIntersection r = none := by
    unfold IdealSurface.calcIntersection
    cases ho : r.origin with
    | none => rfl
    | some o => simp [hz]
  have h2 : Surface.intersection_cy s.shape IdealSurface.calcIntersection r
      = none := by
    simp only [Surface.intersection_cy, h1]
  have h3 : s.propagate r ni nr = .ok [] := by
    simp only [IdealSurface.propagate, h2]
  exact ⟨h1, h2, h3⟩

/-- C8 witness: a concrete ray travelling parallel to the surface plane
terminates with NO_HIT and an empty child list. -/
theorem claim_C8_witness :
    IdealSurface.calcIntersection
        (.mk (some ⟨0, 0, 1⟩) ⟨1, 0, 0⟩ 1 1 1 "" none none 0 0 0 0) = none
    ∧ Surface.intersection_cy (Shape.mk fun _ => true)
        IdealSurface.calcIntersection
        (.mk (some ⟨0, 0, 1⟩) ⟨1, 0, 0⟩ 1 1 1 "" none none 0 0 0 0) = none
    ∧ IdealSurface.propagate (.mk 100 ⟨fun _ => true⟩ (fun _ => 0) 3)
        (.mk (some ⟨0, 0, 1⟩) ⟨1, 0, 0⟩ 1 1 1 "" none none 0 0 0 0) 1 1
      = .ok [] :=
  claim_C8 (.mk 100 ⟨fun _ => true⟩ (fun _ => 0) 3)
    (.mk (some ⟨0, 0, 1⟩) ⟨1, 0, 0⟩ 1 1 1 "" none none 0 0 0 0) 1 1
    (by norm_num [Ray.direction])

/-- C9: every child ray returned by `IdealSurface.propagate` (in any branch)
and by `OpticalStop.propagate` carries a generation counter exactly one
greater than the generation counter of the incident ray. -/
theorem claim_C9 (s : IdealSurface) (t : OpticalStop) (r : Ray)
    (ni nr : ℝ) :
    (∀ l, s.propagate r ni nr = .ok l →
      ∀ c ∈ l, c.parentCnt = r.parentCnt + 1)
    ∧ ∀ c ∈ t.propagate r ni nr, c.parentCnt = r.parentCnt + 1 := by
  constructor
  · intro l hl c hc
    simp only [IdealSurface.propagate] at hl
    split at hl
    · injection hl with h
      subst h
      simp at hc
    · split at hl
      · injection hl with h
        subst h
        simp at hc
      · split at hl
        · cases hl
        · split at hl
          · injection hl with h
            subst h
            simp only [List.mem_singleton] at hc
            subst hc
            rfl
          · split at hl
            · injection hl with h
              subst h
              simp only [List.mem_singleton] at hc
              subst hc
              rfl
            · injection hl with h
              subst h
              simp only [List.mem_cons, List.not_mem_nil, or_false] at hc
              rcases hc with hc | hc <;> subst hc <;> rfl
  · intro c hc
    simp only [OpticalStop.propagate, List.mem_singleton] at hc
    subst hc
    rfl

/-- C9 witness: the single child of a concrete stop propagation has
generation counter 1, one more than the generation 0 of the parent ray. -/
theorem claim_C9_witness :
    (OpticalStop.propagate (.mk ⟨fun _ => true⟩ none 9)
        (.mk (some ⟨0, 0, 1⟩) ⟨0, 0, -1⟩ 1 1 1 "" none none 0 0 0 0) 1
        1).map Ray.parentCnt = [1] := by
  have h := (claim_C9 (.mk 100 ⟨fun _ => true⟩ (fun _ => 0) 3)
      (.mk ⟨fun _ => true⟩ none 9)
      (.mk (some ⟨0, 0, 1⟩) ⟨0, 0, -1⟩ 1 1 1 "" none none 0 0 0 0) 1 1).2
  simp only [OpticalStop.propagate, List.mem_singleton, forall_eq] at h
  simp only [OpticalStop.propagate, List.map_cons, List.map_nil, h]
  simp [Ray.parentCnt]

end PyOpTools
